import Mathlib

/-!
Verification of the security-system pipeline in final.py.

The script is a single polling loop bridging a serial motion sensor to a
remote vision model and a remote speech service.  Each Python function is
translated here as a pure Lean function over an explicit environment that
records the outcomes of the external calls (camera stream, vision API,
speech API, playback library, serial port).  Python text values are
modelled as lists of characters, and the Python string methods used by the
script (strip, upper, split on a single character, substring containment)
are given as structurally recursive Lean functions with the same
semantics.  Side effects that the claims mention (stream release, file
writes, log lines, stage invocations) are recorded as explicit event
traces in the return values.
-/

namespace SmartSecurity

/-- Python text values, modelled as lists of characters. -/
abbrev PyStr := List Char

/-- Python str.strip with no argument: drop leading and trailing whitespace. -/
def pyStrip (s : PyStr) : PyStr :=
  ((s.dropWhile Char.isWhitespace).reverse.dropWhile Char.isWhitespace).reverse

/-- Python str.upper: uppercase every character. -/
def pyUpper (s : PyStr) : PyStr := s.map Char.toUpper

/-- Python str.split with a single-character separator: split on every
occurrence of sep, keeping empty pieces, never returning an empty list. -/
def pySplitChar (sep : Char) : PyStr → List PyStr
  | [] => [[]]
  | c :: cs =>
    let rest := pySplitChar sep cs
    if c = sep then [] :: rest
    else
      match rest with
      | [] => [[c]]
      | r :: rs => (c :: r) :: rs

/-- Python substring containment, the expression sub in s. -/
def pyContains (sub : PyStr) : PyStr → Bool
  | [] => sub.isEmpty
  | c :: cs => List.isPrefixOf sub (c :: cs) || pyContains sub cs

/-- Python truthiness of an optional text value: None and the empty text
are falsy, anything else is truthy. -/
def pyTruthy : Option PyStr → Bool
  | none => false
  | some s => !s.isEmpty

/-!
## Frame capture: capture_image_from_ipcam (final.py lines 65 to 93)
-/

/-- Observable actions of one capture call: constructing the VideoCapture
object (which opens the stream connection), calling release on it, and
writing the snapshot file with imwrite. -/
inductive CapEvent where
  | openStream
  | releaseStream
  | writeSnapshot (path : String)
  deriving DecidableEq

/-- Outcomes of the two external camera calls inside one capture:
whether cap.isOpened() reports the stream as opened, and whether the
single cap.read() returns a frame (the ret flag). -/
structure CamBehavior where
  opened : Bool
  readOk : Bool
  deriving DecidableEq

/-- Fixed snapshot path used by the capture function. -/
def snapshot_path : String := "snapshot.jpg"

/-- Shallow embedding of capture_image_from_ipcam.  Returns the value the
Python function returns (the saved path, or None on failure) together
with the trace of observable actions, in order.  Note that in the source
the early return on a stream that is not opened happens before the call
to cap.release(), so no release event is emitted on that path. -/
def capture_image_from_ipcam (_url : String) (cam : CamBehavior) :
    Option String × List CapEvent :=
  if cam.opened = false then
    (none, [CapEvent.openStream])
  else if cam.readOk = false then
    (none, [CapEvent.openStream, CapEvent.releaseStream])
  else
    (some snapshot_path,
      [CapEvent.openStream, CapEvent.releaseStream,
        CapEvent.writeSnapshot snapshot_path])

/-!
## Vision classifier: analyze_with_gemini (final.py lines 99 to 138)
-/

/-- Outcomes of the external calls inside one classification:
whether os.path.exists finds the image file, whether Image.open succeeds
(an exception there is caught by the try block), and the remote call
outcome: either the response text, or an exception (network failure,
quota, a malformed response object, and so on), also caught. -/
structure AiEnv where
  fileExists : Bool
  imageLoadOk : Bool
  apiResult : Except String PyStr

/-- Shallow embedding of analyze_with_gemini.  The file-existence check
returns False before the try block; inside the try block any exception
from the image load or the remote call is caught and mapped to False;
otherwise the response text is stripped, uppercased and compared for
exact equality with YES. -/
def analyze_with_gemini (env : AiEnv) (_image_path : String) : Bool :=
  if env.fileExists = false then false
  else
    match env.imageLoadOk, env.apiResult with
    | false, _ => false
    | true, Except.error _ => false
    | true, Except.ok txt => pyUpper (pyStrip txt) = "YES".toList

/-!
## Speech synthesizer: generate_warning_audio (final.py lines 152 to 189)
-/

/-- Outcomes of the external calls inside one synthesis: whether the
module-level ElevenLabs client was successfully initialized at startup
(eleven_client is not None), the remote text_to_speech.convert outcome
(a stream of byte chunks, or an exception), whether the file write
succeeds, and the os.path.abspath resolution of a filename. -/
structure AudioEnv where
  clientInit : Bool
  convert : Except String (List (List Nat))
  writeOk : Bool
  abspath : String → String

/-- Shallow embedding of generate_warning_audio.  Returns the value the
Python function returns (the absolute path, or None) paired with whether
the remote convert call was attempted.  A missing client returns None
before the try block; inside the try block an exception from the remote
call or from the file write is caught and mapped to None. -/
def generate_warning_audio (env : AudioEnv) (_text : String) (filename : String) :
    Option String × Bool :=
  if env.clientInit = false then (none, false)
  else
    match env.convert with
    | Except.error _ => (none, true)
    | Except.ok _chunks =>
      if env.writeOk = false then (none, true)
      else (some (env.abspath filename), true)

/-!
## Audio player: play_audio_alert (final.py lines 191 to 208)
-/

/-- Outcomes of the externals of one playback: whether the playsound3
module loaded at startup (playsound is not None), and whether the
playsound call itself succeeds. -/
structure PlayEnv where
  playsoundAvail : Bool
  playOk : Bool
  deriving DecidableEq

/-- The four ways one playback call can end, one per print branch. -/
inductive PlayResult where
  | played
  | playbackErrorLogged
  | skippedNoLib
  | skippedNoPath
  deriving DecidableEq

/-- The raw playsound call, which may raise. -/
def playsound_call (env : PlayEnv) : Except String Unit :=
  if env.playOk then Except.ok () else Except.error "playback failed"

/-- Shallow embedding of play_audio_alert.  The Except layer marks where
an exception could propagate to the caller: the playsound call sits
inside a try block whose handler catches the exception and logs it, so
every branch produces an ok value. -/
def play_audio_alert (env : PlayEnv) (audio_path : Option PyStr) :
    Except String PlayResult :=
  if pyTruthy audio_path && env.playsoundAvail then
    match playsound_call env with
    | Except.ok _ => Except.ok PlayResult.played
    | Except.error _ => Except.ok PlayResult.playbackErrorLogged
  else if env.playsoundAvail = false then Except.ok PlayResult.skippedNoLib
  else Except.ok PlayResult.skippedNoPath

/-!
## Orchestrator: the __main__ block (final.py lines 214 to 307)
-/

/-- The four pipeline stages the main loop can invoke. -/
inductive Stage where
  | capture
  | classify
  | synthesize
  | play
  deriving DecidableEq

/-- External behavior relevant to one triggered cycle of the main loop. -/
structure PipelineEnv where
  cam : CamBehavior
  ai : AiEnv
  audio : AudioEnv
  playback : PlayEnv

/-- The camera URL constant of the script. -/
def IP_CAM_URL : String := "http://10.11.20.70:4747/video"

/-- The fixed warning sentence synthesized on a positive classification. -/
def warning_text : String :=
  "Warning: Unidentified human detected at the perimeter."

/-- The log line printed when capture fails and the cycle is aborted. -/
def capture_fail_log : String :=
  "[Error]: Failed to capture image, cannot perform analysis."

/-- Shallow embedding of the triggered pipeline body (final.py lines 271
to 290): capture; if no image, log and abort the cycle; otherwise
classify; on a positive classification synthesize and then play.
Returns the list of stages invoked, in order, and the log lines that
mark the cycle outcome. -/
def pipeline_run (env : PipelineEnv) : List Stage × List String :=
  match (capture_image_from_ipcam IP_CAM_URL env.cam).1 with
  | none => ([Stage.capture], [capture_fail_log])
  | some image_file =>
    let is_human := analyze_with_gemini env.ai image_file
    if is_human then
      let audio_path := (generate_warning_audio env.audio warning_text "warning_audio.mp3").1
      let _ := play_audio_alert env.playback (audio_path.map String.toList)
      ([Stage.capture, Stage.classify, Stage.synthesize, Stage.play], [])
    else
      ([Stage.capture, Stage.classify], [])

/-- The marker phrase the loop looks for in each decoded serial line. -/
def trigger_marker : PyStr := "The value of pin is:".toList

/-- Shallow embedding of the per-line logic of the sensor loop (final.py
lines 259 to 290): decode and strip the packet, check for the marker
phrase, take the piece after the final colon, strip it, and run the
pipeline exactly when that piece equals the single character 0. -/
def loop_body_line (env : PipelineEnv) (packet : PyStr) : List Stage × List String :=
  let serial_value := pyStrip packet
  if pyContains trigger_marker serial_value then
    let value := pyStrip ((pySplitChar ':' serial_value).getLastD [])
    if value = "0".toList then pipeline_run env
    else ([], [])
  else ([], [])

/-- The exceptions distinguished by the handlers of the main loop. -/
inductive PyExn where
  | serialExn (msg : String)
  | keyboardInterrupt
  | otherExn (msg : String)
  deriving DecidableEq

/-- How one loop iteration ends: break out of the loop because of a fatal
serial error, break out cleanly on a user interrupt, continue after
logging an unexpected error and sleeping one second, or continue
normally. -/
inductive LoopOutcome where
  | breakFatal
  | breakClean
  | continueAfterPause
  | continueNormal
  deriving DecidableEq

/-- Shallow embedding of the try and except structure of the main loop
(final.py lines 256 to 300), applied to the outcome of one iteration
body: a SerialException breaks the loop, a KeyboardInterrupt breaks the
loop, any other exception is logged and followed by a one second pause
before the loop resumes, and a body that raises nothing continues
normally. -/
def loop_iteration_outcome (body : Except PyExn (List Stage × List String)) :
    LoopOutcome :=
  match body with
  | Except.error (PyExn.serialExn _) => LoopOutcome.breakFatal
  | Except.error PyExn.keyboardInterrupt => LoopOutcome.breakClean
  | Except.error (PyExn.otherExn _) => LoopOutcome.continueAfterPause
  | Except.ok _ => LoopOutcome.continueNormal

/-- Which break ends the main loop, once it is entered. -/
inductive LoopExit where
  | serialFatal
  | interrupt
  deriving DecidableEq

/-- External behavior relevant to the startup and shutdown of the whole
process: whether serialInst.open() succeeds, whether GEMINI_API_KEY is
present in the environment, whether genai.Client construction succeeds,
and which break eventually ends the loop if startup completes. -/
structure MainEnv where
  serialOpens : Bool
  geminiKeyPresent : Bool
  geminiInitOk : Bool
  loopExit : LoopExit
  deriving DecidableEq

/-- The distinct process-termination paths of the script. -/
inductive TermPath where
  | startupSerialFail
  | startupConfigFail
  | loopSerialFatal
  | loopInterrupt
  deriving DecidableEq

/-- What the process did by the time it terminated. -/
structure MainResult where
  path : TermPath
  serialOpened : Bool
  closeCalled : Bool
  deriving DecidableEq

/-- Shallow embedding of the startup and shutdown structure of the main
block: a failed serial open exits before anything else; a missing
GEMINI_API_KEY or a failed client construction raises inside the second
try block, whose handler calls exit() directly, with no
serialInst.close() on that path; once the loop is entered, either break
falls through to the serialInst.close() call after the loop. -/
def main_run (env : MainEnv) : MainResult :=
  if env.serialOpens = false then
    ⟨TermPath.startupSerialFail, false, false⟩
  else if (env.geminiKeyPresent && env.geminiInitOk) = false then
    ⟨TermPath.startupConfigFail, true, false⟩
  else
    match env.loopExit with
    | LoopExit.serialFatal => ⟨TermPath.loopSerialFatal, true, true⟩
    | LoopExit.interrupt => ⟨TermPath.loopInterrupt, true, true⟩

/-!
## Concrete environments used to instantiate the theorems
-/

/-- A concrete abspath resolver. -/
def absW : String → String := fun f => String.append "/home/user/" f

/-- A classifier environment where every external call succeeds and the
model answers YES. -/
def aiW : AiEnv := ⟨true, true, Except.ok ("YES".toList)⟩

/-- A synthesizer environment where every external call succeeds. -/
def audioW : AudioEnv := ⟨true, Except.ok [[0]], true, absW⟩

/-- A cycle environment where every external call succeeds. -/
def envW : PipelineEnv := ⟨⟨true, true⟩, aiW, audioW, ⟨true, true⟩⟩

/-- A cycle environment where the camera stream cannot be opened. -/
def envCapFailW : PipelineEnv := ⟨⟨false, false⟩, aiW, audioW, ⟨true, true⟩⟩

/-!
## Theorems
-/

/-- Helper: every run of the triggered pipeline invokes the capture stage. -/
theorem capture_mem_pipeline (env : PipelineEnv) :
    Stage.capture ∈ (pipeline_run env).1 := by
  unfold pipeline_run
  cases h : (capture_image_from_ipcam IP_CAM_URL env.cam).1 with
  | none => simp
  | some p =>
    by_cases hh : analyze_with_gemini env.ai p = true <;> simp [hh]

/-- Helper: the capture function returns None exactly when the stream
does not open or the frame read fails. -/
theorem capture_fst_none (url : String) (cam : CamBehavior)
    (h : cam.opened = false ∨ cam.readOk = false) :
    (capture_image_from_ipcam url cam).1 = none := by
  obtain ⟨o, r⟩ := cam
  rcases h with h | h <;> subst h <;>
    first
      | rfl
      | cases o <;> rfl

/-- C1: for every serial line read in the main loop, the pipeline is
invoked (its first stage, capture, appears in the stage trace) if and
only if the stripped line contains the marker phrase and the piece after
the final colon, stripped of surrounding whitespace, is exactly "0"; on
every other line (marker absent, value other than "0", malformed) no
stage is invoked and nothing is logged, and the body returns normally. -/
theorem c1_trigger_iff (env : PipelineEnv) (packet : PyStr) :
    (Stage.capture ∈ (loop_body_line env packet).1 ↔
      (pyContains trigger_marker (pyStrip packet) = true ∧
        pyStrip ((pySplitChar ':' (pyStrip packet)).getLastD []) = "0".toList)) ∧
    ((pyContains trigger_marker (pyStrip packet) = false ∨
        pyStrip ((pySplitChar ':' (pyStrip packet)).getLastD []) ≠ "0".toList) →
      loop_body_line env packet = ([], [])) := by
  have hcap := capture_mem_pipeline env
  unfold loop_body_line
  by_cases hc : pyContains trigger_marker (pyStrip packet) = true
  · rw [if_pos hc]
    by_cases hv : pyStrip ((pySplitChar ':' (pyStrip packet)).getLastD []) = "0".toList
    · rw [if_pos hv]
      refine ⟨⟨fun _ => ⟨hc, hv⟩, fun _ => hcap⟩, ?_⟩
      rintro (h | h)
      · rw [hc] at h
        exact Bool.noConfusion h
      · exact absurd hv h
    · rw [if_neg hv]
      exact ⟨⟨fun h => absurd h (List.not_mem_nil _), fun h => absurd h.2 hv⟩,
        fun _ => rfl⟩
  · rw [if_neg hc]
    exact ⟨⟨fun h => absurd h (List.not_mem_nil _), fun h => absurd h.1 hc⟩,
      fun _ => rfl⟩

/-- C1 witness: a line carrying the marker with value 1 invokes nothing. -/
theorem c1_trigger_iff_witness :
    loop_body_line envW ("The value of pin is: 1".toList) = ([], []) :=
  (c1_trigger_iff envW ("The value of pin is: 1".toList)).2 (Or.inr (by decide))

/-- C2: for every image path and classifier environment, a missing file,
a failed image load, or an exception in the remote vision call makes the
classifier return false; an error can never produce a true result. -/
theorem c2_classifier_fail_safe (env : AiEnv) (p : String)
    (h : env.fileExists = false ∨ env.imageLoadOk = false ∨
      ∃ e, env.apiResult = Except.error e) :
    analyze_with_gemini env p = false := by
  obtain ⟨fe, il, ar⟩ := env
  rcases h with h | h | ⟨e, h⟩ <;> subst h
  · simp [analyze_with_gemini]
  · cases fe <;> simp [analyze_with_gemini]
  · cases fe <;> cases il <;> simp [analyze_with_gemini]

/-- C2 witness: a missing image file yields a false classification. -/
theorem c2_classifier_fail_safe_witness :
    analyze_with_gemini ⟨false, true, Except.ok ("YES".toList)⟩ snapshot_path = false :=
  c2_classifier_fail_safe ⟨false, true, Except.ok ("YES".toList)⟩ snapshot_path
    (Or.inl rfl)

/-- C3: when the file exists, the image loads, and the remote call
returns a response text, the classifier returns true if and only if the
response text, stripped of whitespace and uppercased, is exactly YES. -/
theorem c3_yes_iff (env : AiEnv) (p : String) (txt : PyStr)
    (hf : env.fileExists = true) (hl : env.imageLoadOk = true)
    (ha : env.apiResult = Except.ok txt) :
    (analyze_with_gemini env p = true ↔ pyUpper (pyStrip txt) = "YES".toList) := by
  obtain ⟨fe, il, ar⟩ := env
  subst hf
  subst hl
  subst ha
  simp [analyze_with_gemini]

/-- C3 witness: the hedged response text consisting of the word yes in
lowercase with surrounding spaces is classified as a human. -/
theorem c3_yes_iff_witness :
    analyze_with_gemini ⟨true, true, Except.ok (" yes ".toList)⟩ snapshot_path = true :=
  (c3_yes_iff ⟨true, true, Except.ok (" yes ".toList)⟩ snapshot_path
    (" yes ".toList) rfl rfl rfl).mpr (by decide)

/-- C4 counterexample: when the stream cannot be opened, the capture
function returns before the release call, so the claim that the stream
connection is released on every outcome path, the stream-unopenable
failure included, is false at this concrete input. -/
theorem c4_counterexample :
    CapEvent.releaseStream ∉
      (capture_image_from_ipcam IP_CAM_URL ⟨false, false⟩).2 := by decide

/-- C4 amended: the capture function calls release exactly on the paths
where the stream reported itself as opened, that is, on the success path
and on the frame-read-failure path; on the stream-unopenable path the
function returns early without a release call. -/
theorem c4_release_iff_opened (url : String) (cam : CamBehavior) :
    CapEvent.releaseStream ∈ (capture_image_from_ipcam url cam).2 ↔
      cam.opened = true := by
  obtain ⟨o, r⟩ := cam
  cases o <;> cases r <;> simp [capture_image_from_ipcam]

/-- C4 witness: on a frame-read failure the release call still happens. -/
theorem c4_release_iff_opened_witness :
    CapEvent.releaseStream ∈ (capture_image_from_ipcam IP_CAM_URL ⟨true, false⟩).2 :=
  (c4_release_iff_opened IP_CAM_URL ⟨true, false⟩).mpr rfl

/-- C5 counterexample: when the serial port opens but GEMINI_API_KEY is
missing, the handler calls exit() directly and the serial connection is
left open, so the claim that the serial connection is closed on every
termination path is false at this concrete input. -/
theorem c5_counterexample :
    (main_run ⟨true, false, true, LoopExit.interrupt⟩).serialOpened = true ∧
      (main_run ⟨true, false, true, LoopExit.interrupt⟩).closeCalled = false := by
  decide

/-- C5 amended: on the two loop-termination paths (fatal serial error
and user interrupt) the serial connection is closed before exit; on the
startup configuration error path (missing GEMINI_API_KEY or failed
client construction after the serial port was opened) the process exits
without closing the serial connection. -/
theorem c5_close_on_loop_paths (env : MainEnv) :
    (env.serialOpens = true → env.geminiKeyPresent = true →
      env.geminiInitOk = true → (main_run env).closeCalled = true) ∧
    (env.serialOpens = true →
      (env.geminiKeyPresent = false ∨ env.geminiInitOk = false) →
      (main_run env).serialOpened = true ∧ (main_run env).closeCalled = false) := by
  obtain ⟨s, k, g, x⟩ := env
  cases s <;> cases k <;> cases g <;> cases x <;> simp [main_run]

/-- C5 witness: a user interrupt after a fully successful startup closes
the serial connection. -/
theorem c5_close_on_loop_paths_witness :
    (main_run ⟨true, true, true, LoopExit.interrupt⟩).closeCalled = true :=
  (c5_close_on_loop_paths ⟨true, true, true, LoopExit.interrupt⟩).1 rfl rfl rfl

/-- C6: in a triggered cycle whose capture fails (stream unopenable or
frame unreadable), the stage trace is capture alone, so the classifier,
the synthesizer and the player are never invoked, and the cycle is
aborted with the capture-failure log line. -/
theorem c6_capture_failure_aborts (env : PipelineEnv)
    (h : env.cam.opened = false ∨ env.cam.readOk = false) :
    (pipeline_run env).1 = [Stage.capture] ∧
    Stage.classify ∉ (pipeline_run env).1 ∧
    Stage.synthesize ∉ (pipeline_run env).1 ∧
    Stage.play ∉ (pipeline_run env).1 ∧
    capture_fail_log ∈ (pipeline_run env).2 := by
  have hn : (capture_image_from_ipcam IP_CAM_URL env.cam).1 = none :=
    capture_fst_none IP_CAM_URL env.cam h
  unfold pipeline_run
  rw [hn]
  simp

/-- C6 witness: with an unopenable stream the cycle runs capture only. -/
theorem c6_capture_failure_aborts_witness :
    (pipeline_run envCapFailW).1 = [Stage.capture] :=
  (c6_capture_failure_aborts envCapFailW (Or.inl rfl)).1

/-- C7: the synthesizer returns no audio without attempting the remote
call when the speech client was never initialized; it returns no audio
whenever the remote call raises or the file write fails; and on full
success it returns the absolute path of the written audio file. -/
theorem c7_synth_contract (env : AudioEnv) (t filename : String) :
    (env.clientInit = false →
      generate_warning_audio env t filename = (none, false)) ∧
    ((∃ e, env.convert = Except.error e) →
      (generate_warning_audio env t filename).1 = none) ∧
    (env.writeOk = false → (generate_warning_audio env t filename).1 = none) ∧
    (env.clientInit = true → env.writeOk = true →
      (∃ cs, env.convert = Except.ok cs) →
      generate_warning_audio env t filename = (some (env.abspath filename), true)) := by
  obtain ⟨ci, cv, wo, ab⟩ := env
  refine ⟨?_, ?_, ?_, ?_⟩
  · intro h
    subst h
    rfl
  · rintro ⟨e, he⟩
    subst he
    cases ci <;> simp [generate_warning_audio]
  · intro h
    subst h
    cases ci <;> cases cv <;> simp [generate_warning_audio]
  · rintro h1 h2 ⟨cs, hcs⟩
    subst h1
    subst h2
    subst hcs
    simp [generate_warning_audio]

/-- C7 witness: with an uninitialized speech client the synthesizer
returns no audio and does not attempt the remote call. -/
theorem c7_synth_contract_witness :
    generate_warning_audio ⟨false, Except.ok [[0]], true, absW⟩ warning_text
      "warning_audio.mp3" = (none, false) :=
  (c7_synth_contract ⟨false, Except.ok [[0]], true, absW⟩ warning_text
    "warning_audio.mp3").1 rfl

/-- C8: per loop iteration, a serial exception ends the loop fatally, a
user interrupt ends it cleanly, any other exception leads to a logged
pause followed by resumed polling, a body that raises nothing continues
normally, and the only iteration outcomes that terminate the loop are
the serial exception and the interrupt. -/
theorem c8_loop_outcomes :
    (∀ msg, loop_iteration_outcome (Except.error (PyExn.serialExn msg)) =
      LoopOutcome.breakFatal) ∧
    loop_iteration_outcome (Except.error PyExn.keyboardInterrupt) =
      LoopOutcome.breakClean ∧
    (∀ msg, loop_iteration_outcome (Except.error (PyExn.otherExn msg)) =
      LoopOutcome.continueAfterPause) ∧
    (∀ body, (loop_iteration_outcome body = LoopOutcome.breakFatal ∨
        loop_iteration_outcome body = LoopOutcome.breakClean) →
      (∃ msg, body = Except.error (PyExn.serialExn msg)) ∨
        body = Except.error PyExn.keyboardInterrupt) := by
  refine ⟨fun msg => rfl, rfl, fun msg => rfl, ?_⟩
  intro body h
  match body with
  | Except.error (PyExn.serialExn m) => exact Or.inl ⟨m, rfl⟩
  | Except.error PyExn.keyboardInterrupt => exact Or.inr rfl
  | Except.error (PyExn.otherExn m) => simp [loop_iteration_outcome] at h
  | Except.ok v => simp [loop_iteration_outcome] at h

/-- C8 witness: a concrete serial exception is one of the two outcomes
that may terminate the loop. -/
theorem c8_loop_outcomes_witness :
    (∃ msg, (Except.error (PyExn.serialExn "device disconnected") :
        Except PyExn (List Stage × List String)) =
      Except.error (PyExn.serialExn msg)) ∨
    (Except.error (PyExn.serialExn "device disconnected") :
        Except PyExn (List Stage × List String)) =
      Except.error PyExn.keyboardInterrupt :=
  c8_loop_outcomes.2.2.2
    (Except.error (PyExn.serialExn "device disconnected")) (Or.inl rfl)

/-- C9: for every playback environment (library present or absent,
playback succeeding or raising) and every audio path argument (a path,
an empty text, or none), the player returns an ok value: the exception a
playback failure raises is caught inside the function, so the player can
never propagate an exception to the main loop. -/
theorem c9_player_never_raises (env : PlayEnv) (audio_path : Option PyStr) :
    ∃ r, play_audio_alert env audio_path = Except.ok r := by
  obtain ⟨av, ok⟩ := env
  cases audio_path with
  | none => cases av <;> cases ok <;> exact ⟨_, rfl⟩
  | some s =>
    cases s with
    | nil => cases av <;> cases ok <;> exact ⟨_, rfl⟩
    | cons c cs => cases av <;> cases ok <;> exact ⟨_, rfl⟩

/-- C10: the capture function writes the snapshot file exactly when the
stream opens and the frame read succeeds, and it then returns the
snapshot path; on either failure path it returns none and emits no file
write, leaving any prior snapshot untouched. -/
theorem c10_write_iff_success (url : String) (cam : CamBehavior) :
    (((capture_image_from_ipcam url cam).1 = some snapshot_path ∧
        CapEvent.writeSnapshot snapshot_path ∈
          (capture_image_from_ipcam url cam).2) ↔
      (cam.opened = true ∧ cam.readOk = true)) ∧
    (¬(cam.opened = true ∧ cam.readOk = true) →
      (capture_image_from_ipcam url cam).1 = none ∧
        ∀ p, CapEvent.writeSnapshot p ∉ (capture_image_from_ipcam url cam).2) := by
  obtain ⟨o, r⟩ := cam
  cases o <;> cases r <;> simp [capture_image_from_ipcam]

/-- C10 witness: a failed frame read returns none and writes nothing. -/
theorem c10_write_iff_success_witness :
    (capture_image_from_ipcam IP_CAM_URL ⟨true, false⟩).1 = none ∧
      ∀ p, CapEvent.writeSnapshot p ∉
        (capture_image_from_ipcam IP_CAM_URL ⟨true, false⟩).2 :=
  (c10_write_iff_success IP_CAM_URL ⟨true, false⟩).2 (by decide)

end SmartSecurity
